import Mathlib

/-!
Verification of the corona-calculator projection engine.

The development shallowly embeds the repository's two source files:

* `src/data/constants.py` — the rate-parameter configuration classes
  (`RemovalRate`, `TransmissionRatePerContact`, `AverageDailyContacts`,
  `AscertainmentRate`, `MortalityRate`, `HospitalizationRate`,
  `VentilationRate`), each with `min` / `default` / `max` class attributes;
* `src/app.py` — the `Sidebar` control surface (contact-rate slider and
  horizon selector) and `run_app`, which constructs the models, calls
  `models.get_predictions`, and computes the peak hospital-bed statistics.

The model implementations (`models.py`: `SIRModel.simulate`,
`TrueInfectedCasesModel.predict`, `DeathTollModel`, `HospitalizationModel`,
`get_predictions`) are not part of the available sources; those definitions
are modelled from the specification (sections 4.1-4.4) and are marked as
such in their doc comments.

Numbers are embedded as exact rationals (`ℚ`); Python floats in the sources
carry exact decimal values, and the statements proved or refuted here are
robust to any reasonable floating-point tolerance.
-/

namespace CoronaCalc

/-! ### Configuration constants, from `src/data/constants.py` -/

namespace constants

namespace RemovalRate

/-- RemovalRate.min from constants.py line 24: `min = 1 / 7`. -/
def min : ℚ := 1 / 7

/-- RemovalRate.default from constants.py line 25: `default = 1 / 10`
(comment: recovery period around 10 days). -/
def default : ℚ := 1 / 10

/-- RemovalRate.max from constants.py line 26: `max = 1 / 14`. -/
def max : ℚ := 1 / 14

end RemovalRate

namespace TransmissionRatePerContact

/-- TransmissionRatePerContact.min from constants.py line 31. -/
def min : ℚ := 0.01

/-- TransmissionRatePerContact.default from constants.py lines 32-34. -/
def default : ℚ := 0.018

/-- TransmissionRatePerContact.max from constants.py line 35. -/
def max : ℚ := 0.022

end TransmissionRatePerContact

namespace AverageDailyContacts

/-- AverageDailyContacts.min from constants.py line 39. -/
def min : ℚ := 0

/-- AverageDailyContacts.max from constants.py line 40. -/
def max : ℚ := 100

/-- AverageDailyContacts.default from constants.py line 41. -/
def default : ℚ := 20

end AverageDailyContacts

namespace AscertainmentRate

/-- AscertainmentRate.min from constants.py line 51. -/
def min : ℚ := 0.05

/-- AscertainmentRate.max from constants.py line 52. -/
def max : ℚ := 0.25

/-- AscertainmentRate.default from constants.py line 53. -/
def default : ℚ := 0.1

end AscertainmentRate

namespace MortalityRate

/-- MortalityRate.min from constants.py line 57. -/
def min : ℚ := 0.005

/-- MortalityRate.max from constants.py line 58. -/
def max : ℚ := 0.05

/-- MortalityRate.default from constants.py line 59. -/
def default : ℚ := 0.01

end MortalityRate

namespace HospitalizationRate

/-- HospitalizationRate.min from constants.py line 64. -/
def min : ℚ := 0.1

/-- HospitalizationRate.max from constants.py line 65. -/
def max : ℚ := 0.2

/-- HospitalizationRate.default from constants.py line 66. -/
def default : ℚ := 0.15

end HospitalizationRate

namespace VentilationRate

/-- VentilationRate.min from constants.py line 72. -/
def min : ℚ := 0.01

/-- VentilationRate.max from constants.py line 73. -/
def max : ℚ := 0.02

/-- VentilationRate.default from constants.py line 74. -/
def default : ℚ := 0.015

end VentilationRate

end constants

/-! ### Model parameter records

`run_app` (src/app.py lines 95-106) constructs four models; the constructor
arguments are recorded in these structures. The behaviour of the models is
modelled from the specification, since `models.py` is not among the
available sources. -/

/-- Parameters of `models.SIRModel`, in constructor-argument order
(transmission rate per contact, daily contact rate, removal rate). -/
structure SIRModel where
  transmission_rate_per_contact : ℚ
  daily_contact_rate : ℚ
  removal_rate : ℚ

/-- Parameter of `models.TrueInfectedCasesModel` (the ascertainment rate). -/
structure TrueInfectedCasesModel where
  ascertainment_rate : ℚ

/-- Parameter of `models.DeathTollModel` (the mortality rate). -/
structure DeathTollModel where
  mortality_rate : ℚ

/-- Parameters of `models.HospitalizationModel`
(hospitalization rate, ventilation rate). -/
structure HospitalizationModel where
  hospitalization_rate : ℚ
  ventilation_rate : ℚ

/-- Modelled from the spec (section 4.1), `models.py` being unavailable:
`AscertainmentModel.predict(confirmed) = confirmed / ascertainmentRate`. -/
def TrueInfectedCasesModel.predict (m : TrueInfectedCasesModel) (confirmed : ℚ) : ℚ :=
  confirmed / m.ascertainment_rate

/-- One day's compartment triple (susceptible, infected, removed). -/
structure SIRState where
  S : ℚ
  I : ℚ
  R : ℚ
deriving DecidableEq

/-- Clamp a value to the interval `[lo, hi]`. The spec (section 4.2)
requires every compartment to be clamped to `[0, N]` after each step. -/
def clamp (lo hi x : ℚ) : ℚ := max lo (min hi x)

/-- Modelled from the spec (section 4.2), `models.py` being unavailable:
one forward-Euler SIR update followed by the clamp of each compartment to
`[0, N]`. -/
def sir_step (m : SIRModel) (N : ℚ) (st : SIRState) : SIRState :=
  let newInfections := m.transmission_rate_per_contact * m.daily_contact_rate * st.S * st.I / N
  let newRemovals := m.removal_rate * st.I
  { S := clamp 0 N (st.S - newInfections)
    I := clamp 0 N (st.I + newInfections - newRemovals)
    R := clamp 0 N (st.R + newRemovals) }

/-- Modelled from the spec (section 4.2): the day-`t` compartment state,
with `S_0 = N - I_0`, `R_0 = 0`, and each later day produced by
`sir_step`. -/
def sir_state (m : SIRModel) (i0 N : ℚ) : ℕ → SIRState
  | 0 => ⟨N - i0, i0, 0⟩
  | t + 1 => sir_step m N (sir_state m i0 N t)

/-- Modelled from the spec (section 4.2), `models.py` being unavailable:
`simulate(initialInfected, totalPopulation, horizonDays)` returns one
`SIRState` per day from 0 to `horizonDays` inclusive. -/
def simulate (m : SIRModel) (i0 N : ℚ) (horizonDays : ℕ) : List SIRState :=
  (List.range (horizonDays + 1)).map (sir_state m i0 N)

/-- The `Status` column values of the prediction dataset (spec section 3). -/
inductive Status where
  | Confirmed
  | TrueInfected
  | Infected
  | Recovered
  | Dead
  | NeedHospitalization
  | NeedVentilation
deriving DecidableEq

/-- One row of the long-form prediction dataset: (day, status, forecast). -/
structure ProjectionRow where
  day : ℕ
  status : Status
  forecast : ℚ
deriving DecidableEq

/-- One status's series of rows: for each day `t` from 0 to `num_days`, a
row whose forecast is `f` applied to the day-`t` compartment state. -/
def status_series (st : Status) (f : SIRState → ℚ) (m : SIRModel) (i0 N : ℚ)
    (num_days : ℕ) : List ProjectionRow :=
  (List.range (num_days + 1)).map fun t => ⟨t, st, f (sir_state m i0 N t)⟩

/-- Modelled from the spec (section 4.4), `models.py` being unavailable:
`models.get_predictions` seeds the true-case estimate, simulates, derives
the clinical-burden series, and concatenates all series. Deaths are
cumulative (computed from `I_t + R_t`); hospitalization and ventilation are
instantaneous occupancy (computed from `I_t`), ventilation being a
sub-fraction of the hospitalized population; a constant `Confirmed` row is
emitted at day 0 only. -/
def get_predictions (true_cases_estimator : TrueInfectedCasesModel)
    (sir_model : SIRModel) (death_toll_model : DeathTollModel)
    (hospitalization_model : HospitalizationModel)
    (number_cases_confirmed population : ℚ) (num_days : ℕ) :
    List ProjectionRow :=
  let i0 := true_cases_estimator.predict number_cases_confirmed
  [⟨0, Status.Confirmed, number_cases_confirmed⟩]
    ++ status_series Status.TrueInfected (fun s => s.I + s.R)
        sir_model i0 population num_days
    ++ status_series Status.Infected (fun s => s.I)
        sir_model i0 population num_days
    ++ status_series Status.Dead
        (fun s => death_toll_model.mortality_rate * (s.I + s.R))
        sir_model i0 population num_days
    ++ status_series Status.NeedHospitalization
        (fun s => hospitalization_model.hospitalization_rate * s.I)
        sir_model i0 population num_days
    ++ status_series Status.NeedVentilation
        (fun s => hospitalization_model.hospitalization_rate
          * hospitalization_model.ventilation_rate * s.I)
        sir_model i0 population num_days

/-! ### The control surface, from `src/app.py` (class `Sidebar`) -/

namespace Sidebar

/-- Modelled from the spec (sections 2 and 6): the external control
surface's slider widget returns a value it constrains to
`[min_value, max_value]`; `value` is the initial (default) position.
Embedded as clamping an arbitrary user choice into the configured range. -/
def slider (min_value max_value value chosen : ℚ) : ℚ :=
  max min_value (min max_value chosen)

/-- `Sidebar.contact_rate` (app.py lines 52-57): the slider is constructed
with `min_value`, `max_value` and initial `value` taken from
`constants.AverageDailyContacts`. -/
def contact_rate (chosen : ℚ) : ℚ :=
  slider constants.AverageDailyContacts.min constants.AverageDailyContacts.max
    constants.AverageDailyContacts.default chosen

/-- `Sidebar.horizon` (app.py lines 59-61): the selectable prediction
periods, keyed by their labels (the labels carry the source's exact
spacing). -/
def horizon : List (String × ℕ) :=
  [("3  months", 90), ("6 months", 180), ("12  months", 365)]

/-- `Sidebar.num_days_for_prediction` (app.py lines 62-66): the radio
widget's selection is looked up in the `horizon` dictionary. A selection
that is not a key of `horizon` yields `none` (in Python, a `KeyError`);
the radio widget only offers the keys of `horizon`. -/
def num_days_for_prediction (selection : String) : Option ℕ :=
  horizon.lookup selection

end Sidebar

/-! ### `run_app`, from `src/app.py` lines 86-169 -/

/-- The per-country fields read by `run_app` (app.py lines 88-90) from
`constants.Countries.country_data`. -/
structure CountryData where
  confirmed : ℚ
  population : ℚ
  num_hospital_beds : ℚ
deriving DecidableEq

/-- The four models `run_app` constructs. -/
structure RunAppModels where
  sir_model : SIRModel
  true_cases_estimator : TrueInfectedCasesModel
  death_toll_model : DeathTollModel
  hospitalization_model : HospitalizationModel

/-- The model-construction step of `run_app` (app.py lines 95-106): every
constructor argument is a process-wide default from `constants`, except
the SIR model's daily contact rate, which is `Sidebar.contact_rate`. -/
def run_app_models (contact_rate : ℚ) : RunAppModels :=
  { sir_model :=
      { transmission_rate_per_contact := constants.TransmissionRatePerContact.default
        daily_contact_rate := contact_rate
        removal_rate := constants.RemovalRate.default }
    true_cases_estimator :=
      { ascertainment_rate := constants.AscertainmentRate.default }
    death_toll_model := { mortality_rate := constants.MortalityRate.default }
    hospitalization_model :=
      { hospitalization_rate := constants.HospitalizationRate.default
        ventilation_rate := constants.VentilationRate.default } }

/-- The prediction step of `run_app` (app.py lines 108-116): `df =
models.get_predictions(...)` applied to the constructed models, the
country's confirmed-case count and population, and the selected horizon.
The country's hospital-bed count is not an argument. -/
def run_app_df (cd : CountryData) (contact_rate : ℚ)
    (num_days_for_prediction : ℕ) : List ProjectionRow :=
  let ms := run_app_models contact_rate
  get_predictions ms.true_cases_estimator ms.sir_model ms.death_toll_model
    ms.hospitalization_model cd.confirmed cd.population num_days_for_prediction

/-- The maximum of a pandas numeric series, for nonempty series (the only
way it is used below; an empty series yields the placeholder 0). -/
def series_max : List ℚ → ℚ
  | [] => 0
  | x :: xs => xs.foldl max x

/-- `peak_occupancy` (app.py line 157): the maximum `Forecast` over the
rows whose `Status` is "Need Hospitalization". -/
def peak_occupancy (df : List ProjectionRow) : ℚ :=
  series_max
    ((df.filter fun r => r.status == Status.NeedHospitalization).map
      fun r => r.forecast)

/-- `percent_beds_at_peak` (app.py line 158):
`min(100 * num_hospital_beds / peak_occupancy, 100)`. There is no guard
against a zero divisor. -/
def percent_beds_at_peak (num_hospital_beds peak : ℚ) : ℚ :=
  min (100 * num_hospital_beds / peak) 100

/-- The bed-availability statistic of `run_app` (app.py lines 157-158) as a
function of the country data and the sidebar inputs. -/
def run_app_percent_beds_at_peak (cd : CountryData) (contact_rate : ℚ)
    (num_days_for_prediction : ℕ) : ℚ :=
  percent_beds_at_peak cd.num_hospital_beds
    (peak_occupancy (run_app_df cd contact_rate num_days_for_prediction))

/-! ### Claims about the configuration constants -/

/-- C1: the claimed invariant `min ≤ default ≤ max` holds for six of the
seven configured rate parameters but fails for `RemovalRate`, whose values
are reciprocals of the recovery-period bounds and therefore arrive in
reversed order: `min = 1/7 > default = 1/10 > max = 1/14`. -/
theorem removal_rate_breaks_min_default_max_invariant :
    constants.RemovalRate.min = 1 / 7 ∧
    constants.RemovalRate.default = 1 / 10 ∧
    constants.RemovalRate.max = 1 / 14 ∧
    ¬ (constants.RemovalRate.min ≤ constants.RemovalRate.default ∧
        constants.RemovalRate.default ≤ constants.RemovalRate.max) ∧
    (constants.TransmissionRatePerContact.min ≤ constants.TransmissionRatePerContact.default ∧
      constants.TransmissionRatePerContact.default ≤ constants.TransmissionRatePerContact.max) ∧
    (constants.AverageDailyContacts.min ≤ constants.AverageDailyContacts.default ∧
      constants.AverageDailyContacts.default ≤ constants.AverageDailyContacts.max) ∧
    (constants.AscertainmentRate.min ≤ constants.AscertainmentRate.default ∧
      constants.AscertainmentRate.default ≤ constants.AscertainmentRate.max) ∧
    (constants.MortalityRate.min ≤ constants.MortalityRate.default ∧
      constants.MortalityRate.default ≤ constants.MortalityRate.max) ∧
    (constants.HospitalizationRate.min ≤ constants.HospitalizationRate.default ∧
      constants.HospitalizationRate.default ≤ constants.HospitalizationRate.max) ∧
    (constants.VentilationRate.min ≤ constants.VentilationRate.default ∧
      constants.VentilationRate.default ≤ constants.VentilationRate.max) := by
  norm_num [constants.RemovalRate.min, constants.RemovalRate.default,
    constants.RemovalRate.max, constants.TransmissionRatePerContact.min,
    constants.TransmissionRatePerContact.default,
    constants.TransmissionRatePerContact.max,
    constants.AverageDailyContacts.min, constants.AverageDailyContacts.default,
    constants.AverageDailyContacts.max, constants.AscertainmentRate.min,
    constants.AscertainmentRate.default, constants.AscertainmentRate.max,
    constants.MortalityRate.min, constants.MortalityRate.default,
    constants.MortalityRate.max, constants.HospitalizationRate.min,
    constants.HospitalizationRate.default, constants.HospitalizationRate.max,
    constants.VentilationRate.min, constants.VentilationRate.default,
    constants.VentilationRate.max]

/-- C3: the process-wide default rates equal the values named in
end-to-end scenario 1 of the spec: transmission rate per contact 0.018,
removal rate 0.1, ascertainment rate 0.1, daily contact rate 20. -/
theorem default_rates_match_scenario_one :
    constants.TransmissionRatePerContact.default = 0.018 ∧
    constants.RemovalRate.default = 0.1 ∧
    constants.AscertainmentRate.default = 0.1 ∧
    constants.AverageDailyContacts.default = 20 := by
  norm_num [constants.TransmissionRatePerContact.default,
    constants.RemovalRate.default, constants.AscertainmentRate.default,
    constants.AverageDailyContacts.default]

/-- C5 counterexample: the `AverageDailyContacts` rate parameter does not
have all of its `min`, `default`, `max` values in `[0, 1]`: its default is
20 and its max is 100. -/
theorem average_daily_contacts_values_not_in_unit_interval :
    ¬ (0 ≤ constants.AverageDailyContacts.min ∧
        constants.AverageDailyContacts.min ≤ 1 ∧
        0 ≤ constants.AverageDailyContacts.default ∧
        constants.AverageDailyContacts.default ≤ 1 ∧
        0 ≤ constants.AverageDailyContacts.max ∧
        constants.AverageDailyContacts.max ≤ 1) := by
  norm_num [constants.AverageDailyContacts.min,
    constants.AverageDailyContacts.default, constants.AverageDailyContacts.max]

/-- C5 (amended): every `min`, `default`, `max` value of the six genuine
rate parameters (transmission probability, removal rate, ascertainment
rate, mortality rate, hospitalization rate, ventilation rate) lies in
`[0, 1]`; the contact-rate parameter `AverageDailyContacts` is a
persons-per-day count whose values lie in `[0, 100]` instead. -/
theorem rate_parameter_values_in_range :
    (0 ≤ constants.TransmissionRatePerContact.min ∧
      constants.TransmissionRatePerContact.min ≤ 1 ∧
      0 ≤ constants.TransmissionRatePerContact.default ∧
      constants.TransmissionRatePerContact.default ≤ 1 ∧
      0 ≤ constants.TransmissionRatePerContact.max ∧
      constants.TransmissionRatePerContact.max ≤ 1) ∧
    (0 ≤ constants.RemovalRate.min ∧ constants.RemovalRate.min ≤ 1 ∧
      0 ≤ constants.RemovalRate.default ∧ constants.RemovalRate.default ≤ 1 ∧
      0 ≤ constants.RemovalRate.max ∧ constants.RemovalRate.max ≤ 1) ∧
    (0 ≤ constants.AscertainmentRate.min ∧ constants.AscertainmentRate.min ≤ 1 ∧
      0 ≤ constants.AscertainmentRate.default ∧ constants.AscertainmentRate.default ≤ 1 ∧
      0 ≤ constants.AscertainmentRate.max ∧ constants.AscertainmentRate.max ≤ 1) ∧
    (0 ≤ constants.MortalityRate.min ∧ constants.MortalityRate.min ≤ 1 ∧
      0 ≤ constants.MortalityRate.default ∧ constants.MortalityRate.default ≤ 1 ∧
      0 ≤ constants.MortalityRate.max ∧ constants.MortalityRate.max ≤ 1) ∧
    (0 ≤ constants.HospitalizationRate.min ∧ constants.HospitalizationRate.min ≤ 1 ∧
      0 ≤ constants.HospitalizationRate.default ∧ constants.HospitalizationRate.default ≤ 1 ∧
      0 ≤ constants.HospitalizationRate.max ∧ constants.HospitalizationRate.max ≤ 1) ∧
    (0 ≤ constants.VentilationRate.min ∧ constants.VentilationRate.min ≤ 1 ∧
      0 ≤ constants.VentilationRate.default ∧ constants.VentilationRate.default ≤ 1 ∧
      0 ≤ constants.VentilationRate.max ∧ constants.VentilationRate.max ≤ 1) ∧
    (0 ≤ constants.AverageDailyContacts.min ∧
      constants.AverageDailyContacts.min ≤ 100 ∧
      0 ≤ constants.AverageDailyContacts.default ∧
      constants.AverageDailyContacts.default ≤ 100 ∧
      0 ≤ constants.AverageDailyContacts.max ∧
      constants.AverageDailyContacts.max ≤ 100) := by
  norm_num [constants.RemovalRate.min, constants.RemovalRate.default,
    constants.RemovalRate.max, constants.TransmissionRatePerContact.min,
    constants.TransmissionRatePerContact.default,
    constants.TransmissionRatePerContact.max,
    constants.AverageDailyContacts.min, constants.AverageDailyContacts.default,
    constants.AverageDailyContacts.max, constants.AscertainmentRate.min,
    constants.AscertainmentRate.default, constants.AscertainmentRate.max,
    constants.MortalityRate.min, constants.MortalityRate.default,
    constants.MortalityRate.max, constants.HospitalizationRate.min,
    constants.HospitalizationRate.default, constants.HospitalizationRate.max,
    constants.VentilationRate.min, constants.VentilationRate.default,
    constants.VentilationRate.max]

/-! ### Claims about the control surface -/

/-- C4: in every invocation of `run_app`, the contact rate is the only
per-run varying model parameter: the SIR model, the true-cases estimator,
the death-toll model and the hospitalization model are each constructed
with the process-wide default values for every rate other than the
user-supplied contact rate. -/
theorem run_app_varies_only_contact_rate (c : ℚ) :
    (run_app_models c).sir_model.transmission_rate_per_contact
        = constants.TransmissionRatePerContact.default ∧
    (run_app_models c).sir_model.daily_contact_rate = c ∧
    (run_app_models c).sir_model.removal_rate = constants.RemovalRate.default ∧
    (run_app_models c).true_cases_estimator.ascertainment_rate
        = constants.AscertainmentRate.default ∧
    (run_app_models c).death_toll_model.mortality_rate
        = constants.MortalityRate.default ∧
    (run_app_models c).hospitalization_model.hospitalization_rate
        = constants.HospitalizationRate.default ∧
    (run_app_models c).hospitalization_model.ventilation_rate
        = constants.VentilationRate.default :=
  ⟨rfl, rfl, rfl, rfl, rfl, rfl, rfl⟩

/-- C7: the sidebar slider is constructed with minimum 0, maximum 100 and
initial value 20, all taken from `constants.AverageDailyContacts`, and the
contact rate it supplies lies in `[0, 100]` for every user choice. -/
theorem contact_rate_within_slider_bounds (chosen : ℚ) :
    constants.AverageDailyContacts.min = 0 ∧
    constants.AverageDailyContacts.max = 100 ∧
    constants.AverageDailyContacts.default = 20 ∧
    0 ≤ Sidebar.contact_rate chosen ∧ Sidebar.contact_rate chosen ≤ 100 := by
  refine ⟨rfl, rfl, rfl, ?_, ?_⟩
  · calc (0 : ℚ) = constants.AverageDailyContacts.min := rfl
    _ ≤ Sidebar.contact_rate chosen := le_max_left _ _
  · show max constants.AverageDailyContacts.min
        (min constants.AverageDailyContacts.max chosen) ≤ 100
    refine max_le (by norm_num [constants.AverageDailyContacts.min]) ?_
    calc min constants.AverageDailyContacts.max chosen
        ≤ constants.AverageDailyContacts.max := min_le_left _ _
    _ = 100 := rfl

/-- C6: every horizon the period selector can deliver is one of the three
values 90, 180 and 365: whenever looking a selection up in
`Sidebar.horizon` succeeds, the resulting number of days is 90, 180 or
365. -/
theorem num_days_for_prediction_in_options (selection : String) (n : ℕ)
    (h : Sidebar.num_days_for_prediction selection = some n) :
    n = 90 ∨ n = 180 ∨ n = 365 := by
  simp only [Sidebar.num_days_for_prediction, Sidebar.horizon,
    List.lookup] at h
  repeat' split at h
  all_goals simp_all

/-- Witness for C6: the selection of the first radio option, "3  months",
yields 90 days. -/
theorem num_days_for_prediction_in_options_witness :
    (90 : ℕ) = 90 ∨ (90 : ℕ) = 180 ∨ (90 : ℕ) = 365 :=
  num_days_for_prediction_in_options "3  months" 90 (by rfl)

/-! ### Invariants of the SIR simulation -/

/-- A value already inside `[0, hi]` is unchanged by the clamp. -/
theorem clamp_eq_self (hi x : ℚ) (h0 : 0 ≤ x) (hhi : x ≤ hi) :
    clamp 0 hi x = x := by
  unfold clamp
  rw [min_eq_right hhi, max_eq_right h0]

/-- One `sir_step` preserves non-negativity and the compartment sum,
provided the product of transmission rate and contact rate is at most 1
(so that new infections cannot exceed the susceptible pool and no clamp
fires). -/
theorem sir_step_invariant (m : SIRModel) (N : ℚ) (st : SIRState)
    (hβ : 0 ≤ m.transmission_rate_per_contact)
    (hc : 0 ≤ m.daily_contact_rate)
    (hβc : m.transmission_rate_per_contact * m.daily_contact_rate ≤ 1)
    (hγ0 : 0 ≤ m.removal_rate) (hγ1 : m.removal_rate ≤ 1)
    (hN : 0 < N) (hS : 0 ≤ st.S) (hI : 0 ≤ st.I) (hR : 0 ≤ st.R)
    (hsum : st.S + st.I + st.R = N) :
    0 ≤ (sir_step m N st).S ∧ 0 ≤ (sir_step m N st).I ∧
      0 ≤ (sir_step m N st).R ∧
      (sir_step m N st).S + (sir_step m N st).I + (sir_step m N st).R = N := by
  have hIN : st.I ≤ N := by linarith
  have hSN : st.S ≤ N := by linarith
  simp only [sir_step]
  set ni := m.transmission_rate_per_contact * m.daily_contact_rate * st.S * st.I / N
    with hni
  set nr := m.removal_rate * st.I with hnr
  have hni0 : 0 ≤ ni := by
    rw [hni]
    exact div_nonneg (mul_nonneg (mul_nonneg (mul_nonneg hβ hc) hS) hI) hN.le
  have hniS : ni ≤ st.S := by
    rw [hni, div_le_iff₀ hN]
    nlinarith [mul_nonneg hS hI, mul_nonneg hS (sub_nonneg.mpr hIN),
      mul_nonneg (sub_nonneg.mpr hβc) (mul_nonneg hS hI)]
  have hnr0 : 0 ≤ nr := mul_nonneg hγ0 hI
  have hnrI : nr ≤ st.I := by
    rw [hnr]
    nlinarith [mul_nonneg (sub_nonneg.mpr hγ1) hI]
  rw [clamp_eq_self N (st.S - ni) (by linarith) (by linarith),
    clamp_eq_self N (st.I + ni - nr) (by linarith) (by linarith),
    clamp_eq_self N (st.R + nr) (by linarith) (by linarith)]
  refine ⟨by linarith, by linarith, by linarith, by linarith⟩

/-- Non-negativity and compartment conservation hold at every day of the
simulation, provided transmission rate times contact rate is at most 1. -/
theorem sir_state_invariant (m : SIRModel) (i0 N : ℚ)
    (hβ : 0 ≤ m.transmission_rate_per_contact)
    (hc : 0 ≤ m.daily_contact_rate)
    (hβc : m.transmission_rate_per_contact * m.daily_contact_rate ≤ 1)
    (hγ0 : 0 ≤ m.removal_rate) (hγ1 : m.removal_rate ≤ 1)
    (hN : 0 < N) (hi0 : 0 ≤ i0) (hiN : i0 ≤ N) (t : ℕ) :
    0 ≤ (sir_state m i0 N t).S ∧ 0 ≤ (sir_state m i0 N t).I ∧
      0 ≤ (sir_state m i0 N t).R ∧
      (sir_state m i0 N t).S + (sir_state m i0 N t).I
        + (sir_state m i0 N t).R = N := by
  induction t with
  | zero =>
    refine ⟨?_, hi0, le_refl 0, ?_⟩
    · show 0 ≤ N - i0
      linarith
    · show N - i0 + i0 + 0 = N
      ring
  | succ t ih =>
    obtain ⟨hS, hI, hR, hsum⟩ := ih
    exact sir_step_invariant m N (sir_state m i0 N t) hβ hc hβc hγ0 hγ1 hN hS hI hR hsum

/-- C2 counterexample: conservation fails for a valid parameter
combination once the clamp fires. With transmission rate 1 (allowed, the
spec constrains it to `[0, 1]`), daily contact rate 3 and removal rate
1/2, total population 4 and 2 initially infected, day 1 of the simulation
has compartment sum 5, not the total population 4 — new infections exceed
the susceptible pool, `S` is clamped up to 0, and the sum inflates. -/
theorem simulate_conservation_counterexample :
    ((simulate ⟨1, 3, 1 / 2⟩ 2 4 1).map fun s => s.S + s.I + s.R) = [4, 5] := by
  norm_num [simulate, List.range_succ, sir_state, sir_step, clamp,
    min_def, max_def]

/-- The clamp to `[0, N]` makes every compartment of every simulated day
non-negative, with no bound on the rates at all: only the initial state
must be valid (`0 ≤ i0 ≤ N`), since day 0 is not clamped. -/
theorem sir_state_nonneg (m : SIRModel) (i0 N : ℚ)
    (hi0 : 0 ≤ i0) (hiN : i0 ≤ N) (t : ℕ) :
    0 ≤ (sir_state m i0 N t).S ∧ 0 ≤ (sir_state m i0 N t).I ∧
      0 ≤ (sir_state m i0 N t).R := by
  cases t with
  | zero =>
    refine ⟨?_, hi0, le_refl 0⟩
    show 0 ≤ N - i0
    linarith
  | succ t =>
    exact ⟨le_max_left 0 _, le_max_left 0 _, le_max_left 0 _⟩

/-- C2 (amended): every state produced by `simulate` has non-negative
compartments — the per-step clamp enforces this for every valid parameter
combination, with no bound on the rate product — and the compartments sum
to the total population provided additionally the product of the
transmission rate per contact and the daily contact rate is at most 1
(equivalently, whenever the per-step clamp never fires; conservation needs
this extra bound). -/
theorem simulate_states_conserve_and_nonneg (m : SIRModel) (i0 N : ℚ)
    (horizonDays : ℕ) (st : SIRState)
    (hβ : 0 ≤ m.transmission_rate_per_contact)
    (hc : 0 ≤ m.daily_contact_rate)
    (hγ0 : 0 ≤ m.removal_rate) (hγ1 : m.removal_rate ≤ 1)
    (hN : 0 < N) (hi0 : 0 ≤ i0) (hiN : i0 ≤ N)
    (hmem : st ∈ simulate m i0 N horizonDays) :
    (0 ≤ st.S ∧ 0 ≤ st.I ∧ 0 ≤ st.R) ∧
      (m.transmission_rate_per_contact * m.daily_contact_rate ≤ 1 →
        st.S + st.I + st.R = N) := by
  obtain ⟨t, _, rfl⟩ := List.mem_map.mp hmem
  refine ⟨sir_state_nonneg m i0 N hi0 hiN t, fun hβc => ?_⟩
  exact (sir_state_invariant m i0 N hβ hc hβc hγ0 hγ1 hN hi0 hiN t).2.2.2

/-- Witness for C2 (amended): with transmission rate 1/2, contact rate 2
(rate product 1), removal rate 1/2, 2 initially infected in a population
of 4, the day-1 state (1, 2, 1) of the 2-day simulation is non-negative
and sums to 4. -/
theorem simulate_states_conserve_and_nonneg_witness :
    (0 ≤ (SIRState.mk 1 2 1).S ∧ 0 ≤ (SIRState.mk 1 2 1).I ∧
      0 ≤ (SIRState.mk 1 2 1).R) ∧
      (SIRState.mk 1 2 1).S + (SIRState.mk 1 2 1).I + (SIRState.mk 1 2 1).R = 4 :=
  ⟨(simulate_states_conserve_and_nonneg ⟨1 / 2, 2, 1 / 2⟩ 2 4 2 ⟨1, 2, 1⟩
      (by norm_num) (by norm_num) (by norm_num) (by norm_num) (by norm_num)
      (by norm_num) (by norm_num)
      (by norm_num [simulate, List.range_succ, sir_state, sir_step, clamp,
        min_def, max_def])).1,
    (simulate_states_conserve_and_nonneg ⟨1 / 2, 2, 1 / 2⟩ 2 4 2 ⟨1, 2, 1⟩
      (by norm_num) (by norm_num) (by norm_num) (by norm_num) (by norm_num)
      (by norm_num) (by norm_num)
      (by norm_num [simulate, List.range_succ, sir_state, sir_step, clamp,
        min_def, max_def])).2 (by norm_num)⟩

/-! ### Claims about the prediction dataset and peak statistics -/

/-- C8: the prediction step is independent of the hospital-bed count. Two
runs of `run_app` whose country data differ only in `num_hospital_beds`
(same confirmed-case count and population) produce identical prediction
datasets, since the bed count is never passed to `get_predictions`. -/
theorem predictions_independent_of_hospital_beds (cd1 cd2 : CountryData)
    (contact_rate : ℚ) (num_days : ℕ)
    (hconf : cd1.confirmed = cd2.confirmed)
    (hpop : cd1.population = cd2.population) :
    run_app_df cd1 contact_rate num_days = run_app_df cd2 contact_rate num_days := by
  simp only [run_app_df, hconf, hpop]

/-- Witness for C8: two countries with 100 confirmed cases and population
1000, one with 50 hospital beds and one with 7, get the same 90-day
prediction dataset. -/
theorem predictions_independent_of_hospital_beds_witness :
    run_app_df ⟨100, 1000, 50⟩ 20 90 = run_app_df ⟨100, 1000, 7⟩ 20 90 :=
  predictions_independent_of_hospital_beds ⟨100, 1000, 50⟩ ⟨100, 1000, 7⟩ 20 90
    rfl rfl

/-- C9: whenever the peak Need-Hospitalization forecast is positive and
the bed count non-negative, the bed-availability percentage computed by
`run_app` equals `min(100 * num_hospital_beds / peak_occupancy, 100)` and
therefore never exceeds 100, even when the bed count exceeds peak
demand. -/
theorem percent_beds_at_peak_capped_at_100 (cd : CountryData)
    (contact_rate : ℚ) (num_days : ℕ)
    (hbeds : 0 ≤ cd.num_hospital_beds)
    (hpeak : 0 < peak_occupancy (run_app_df cd contact_rate num_days)) :
    run_app_percent_beds_at_peak cd contact_rate num_days
      = min (100 * cd.num_hospital_beds
          / peak_occupancy (run_app_df cd contact_rate num_days)) 100 ∧
    run_app_percent_beds_at_peak cd contact_rate num_days ≤ 100 := by
  constructor
  · rfl
  · show min (100 * cd.num_hospital_beds
        / peak_occupancy (run_app_df cd contact_rate num_days)) 100 ≤ 100
    exact min_le_right _ _

/-- A series for a status different from the one filtered on contributes
no rows. -/
theorem filter_status_series_of_ne (q st : Status) (hne : st ≠ q)
    (f : SIRState → ℚ) (m : SIRModel) (i0 N : ℚ) (n : ℕ) :
    (status_series st f m i0 N n).filter (fun r => r.status == q) = [] := by
  rw [List.filter_eq_nil_iff]
  intro r hr
  obtain ⟨t, _, rfl⟩ := List.mem_map.mp hr
  simpa using hne

/-- A series for the status filtered on contributes all of its rows. -/
theorem filter_status_series_self (q : Status) (f : SIRState → ℚ)
    (m : SIRModel) (i0 N : ℚ) (n : ℕ) :
    (status_series q f m i0 N n).filter (fun r => r.status == q)
      = status_series q f m i0 N n := by
  rw [List.filter_eq_self]
  intro r hr
  obtain ⟨t, _, rfl⟩ := List.mem_map.mp hr
  simp

/-- The peak Need-Hospitalization forecast of a prediction dataset is the
maximum over the horizon of the hospitalization rate times the infected
compartment. -/
theorem peak_occupancy_get_predictions (tce : TrueInfectedCasesModel)
    (sir : SIRModel) (dtm : DeathTollModel) (hm : HospitalizationModel)
    (conf pop : ℚ) (n : ℕ) :
    peak_occupancy (get_predictions tce sir dtm hm conf pop n)
      = series_max ((List.range (n + 1)).map fun t =>
          hm.hospitalization_rate * (sir_state sir (tce.predict conf) pop t).I) := by
  unfold peak_occupancy get_predictions
  rw [List.filter_append, List.filter_append, List.filter_append,
    List.filter_append, List.filter_append,
    filter_status_series_of_ne Status.NeedHospitalization Status.TrueInfected
      (by simp),
    filter_status_series_of_ne Status.NeedHospitalization Status.Infected
      (by simp),
    filter_status_series_of_ne Status.NeedHospitalization Status.Dead
      (by simp),
    filter_status_series_of_ne Status.NeedHospitalization Status.NeedVentilation
      (by simp),
    filter_status_series_self]
  have hconf : ([⟨0, Status.Confirmed, conf⟩] : List ProjectionRow).filter
      (fun r => r.status == Status.NeedHospitalization) = [] := rfl
  rw [hconf]
  simp only [status_series, List.map_map, List.nil_append, List.append_nil]
  rfl

/-- Witness for C9: a country with 1 confirmed case, population 10 and 3
hospital beds, at horizon 0 days. The peak Need-Hospitalization forecast
is 3/2 (positive), 3 beds exceed it, and the computed percentage is capped
at 100. -/
theorem percent_beds_at_peak_capped_at_100_witness :
    run_app_percent_beds_at_peak ⟨1, 10, 3⟩ 20 0
      = min (100 * (CountryData.mk 1 10 3).num_hospital_beds
          / peak_occupancy (run_app_df ⟨1, 10, 3⟩ 20 0)) 100 ∧
    run_app_percent_beds_at_peak ⟨1, 10, 3⟩ 20 0 ≤ 100 :=
  percent_beds_at_peak_capped_at_100 ⟨1, 10, 3⟩ 20 0 (by norm_num)
    (by
      simp only [run_app_df, run_app_models]
      rw [peak_occupancy_get_predictions]
      norm_num [series_max, TrueInfectedCasesModel.predict, sir_state,
        List.range_succ, constants.AscertainmentRate.default,
        constants.HospitalizationRate.default])

/-- A left fold of `max` over a list of zeros, started at zero, is zero. -/
theorem foldl_max_of_all_zero (xs : List ℚ) (x : ℚ) (hx : x = 0)
    (h : ∀ y ∈ xs, y = 0) : xs.foldl max x = 0 := by
  induction xs generalizing x with
  | nil => simpa using hx
  | cons y ys ih =>
    simp only [List.foldl_cons]
    refine ih (max x y) ?_ fun z hz => h z (by simp [hz])
    rw [hx, h y (by simp)]
    exact max_self 0

/-- The maximum of a series whose entries are all zero is zero. -/
theorem series_max_of_all_zero (l : List ℚ) (h : ∀ x ∈ l, x = 0) :
    series_max l = 0 := by
  cases l with
  | nil => rfl
  | cons x xs =>
    exact foldl_max_of_all_zero xs x (h x (by simp)) fun y hy => h y (by simp [hy])

/-- With zero initially infected, the infected compartment stays at zero
forever (the zero-infection fixed point of the clamped SIR step). -/
theorem sir_state_infected_eq_zero (m : SIRModel) (N : ℚ) (t : ℕ) :
    (sir_state m 0 N t).I = 0 := by
  induction t with
  | zero => rfl
  | succ t ih =>
    have h0 : clamp 0 N 0 = 0 := max_eq_left (min_le_right N 0)
    simp only [sir_state, sir_step, ih, mul_zero, zero_div, add_zero,
      sub_zero, zero_add, zero_sub, neg_zero, h0]

/-- A projection for zero confirmed cases has a zero peak
Need-Hospitalization forecast: the true-case seed is zero, the infected
compartment stays at zero, and every hospitalization forecast is zero. -/
theorem peak_occupancy_of_zero_confirmed (tce : TrueInfectedCasesModel)
    (sir : SIRModel) (dtm : DeathTollModel) (hm : HospitalizationModel)
    (population : ℚ) (num_days : ℕ) :
    peak_occupancy (get_predictions tce sir dtm hm 0 population num_days) = 0 := by
  rw [peak_occupancy_get_predictions]
  apply series_max_of_all_zero
  intro x hx
  obtain ⟨t, _, rfl⟩ := List.mem_map.mp hx
  have hpredict : tce.predict 0 = 0 := by
    simp [TrueInfectedCasesModel.predict]
  rw [hpredict, sir_state_infected_eq_zero, mul_zero]

/-- C10 counterexample: an input region with zero confirmed cases on which
the divisor `peak_occupancy` of `run_app`'s bed-percentage computation is
zero, refuting that the divisor is nonzero for every input region. -/
theorem peak_occupancy_zero_for_zero_confirmed_region :
    peak_occupancy (run_app_df ⟨0, 500, 10⟩ 20 2) = 0 := by
  simp only [run_app_df]
  exact peak_occupancy_of_zero_confirmed _ _ _ _ _ _

/-- C10 (amended): the division computing `percent_beds_at_peak` has no
zero-divisor guard, and its divisor is not always nonzero: for every
country record with zero confirmed cases, every contact rate and every
horizon, the peak Need-Hospitalization forecast — the divisor — is zero,
so the computation is well-defined only under the precondition that this
peak is positive. -/
theorem zero_confirmed_gives_zero_peak_occupancy (cd : CountryData)
    (contact_rate : ℚ) (num_days : ℕ) (hconf : cd.confirmed = 0) :
    peak_occupancy (run_app_df cd contact_rate num_days) = 0 := by
  simp only [run_app_df, hconf]
  exact peak_occupancy_of_zero_confirmed _ _ _ _ _ _

/-- Witness for C10 (amended): a country with zero confirmed cases,
population 1000 and 50 beds yields a zero divisor at horizon 90. -/
theorem zero_confirmed_gives_zero_peak_occupancy_witness :
    peak_occupancy (run_app_df ⟨0, 1000, 50⟩ 20 90) = 0 :=
  zero_confirmed_gives_zero_peak_occupancy ⟨0, 1000, 50⟩ 20 90 rfl

end CoronaCalc
